import Mathlib

/-!
Verification of `sync-git-with-icloud` (Python package `sync_icloud_git`)
against its natural-language specification.

The definitions below are a shallow embedding of the repository's code:

* `src/sync_icloud_git/cli.py`        — pipeline steps and `main`
* `src/sync_icloud_git/config.py`     — argument choices and default patterns
* `src/sync_icloud_git/git_operations.py`    — commit/push/auth-URL logic
* `src/sync_icloud_git/icloud_operations.py` — rclone sync orchestration
* `src/sync_icloud_git/cloud_operations.py`  — generalized rclone sync variant

Effectful Python code is embedded by making the environment explicit
(flags for which external calls succeed, counts for what the external
world reports) and by tracking the observable outcome (boolean results,
raised exceptions as `Except.error`, and counts of side effects such as
commits created or pushes performed).
-/

/-! ## Pipeline step names and mode table (`cli.py`, `StepPipeline.__init__`) -/

/-- The seven concrete `Step` subclasses of `cli.py`. -/
inductive StepName where
  | repositoryUpdate   -- `RepositoryUpdateStep`  (spec: AcquireOrRefresh)
  | repositoryLoad     -- `RepositoryLoadStep`    (spec: LoadOnly)
  | repositoryClone    -- `RepositoryCloneStep`   (spec: CloneOnly)
  | icloudSync         -- `ICloudSyncStep`        (spec: CloudSync)
  | showChanges        -- `ShowChangesStep`       (spec: ReportDiff)
  | commitStep         -- `CommitStep`            (spec: CommitAll)
  | pushStep           -- `PushStep`              (spec: PushAll)
deriving DecidableEq, Repr

/-- `StepPipeline.__init__`: the `step_definitions` dict, as a function from
the mode string to the ordered step list; the lookup
`self.step_definitions.get(config.step, [])` returns `[]` for unknown keys. -/
def step_definitions (mode : String) : List StepName :=
  if mode = "all" then
    [StepName.repositoryUpdate, StepName.repositoryClone, StepName.icloudSync,
     StepName.showChanges, StepName.commitStep, StepName.pushStep]
  else if mode = "update" then
    [StepName.repositoryUpdate]
  else if mode = "clone" then
    [StepName.repositoryClone]
  else if mode = "sync" then
    [StepName.repositoryLoad, StepName.icloudSync, StepName.showChanges,
     StepName.commitStep, StepName.pushStep]
  else
    []

/-- `config.py`, `load_config`: the `--step` argument is declared with
`choices=['all', 'clone', 'update', 'sync']`. -/
def stepChoices : List String := ["all", "clone", "update", "sync"]

/-- argparse rejects (with `parser.error`, i.e. before the pipeline object is
even built) any `--step` value outside `choices`; a value inside `choices` is
accepted as given. -/
def parseStepArg (s : String) : Option String :=
  if s ∈ stepChoices then some s else none

/-! ## Pipeline executor (`cli.py`, `StepPipeline.execute`)

A step is a function from the shared context to a success flag and an
updated context.  The executor returns the overall result, the final
context, and the number of steps that actually executed (the loop body
`if not success: return False` stops before any later step runs). -/

def pipelineExecute {σ : Type} : List (σ → Bool × σ) → σ → Bool × σ × Nat
  | [], ctx => (true, ctx, 0)
  | s :: rest, ctx =>
    let r := s ctx
    if r.1 then
      let t := pipelineExecute rest r.2
      (t.1, t.2.1, t.2.2 + 1)
    else
      (false, r.2, 1)

/-! ## The update and clone steps (`cli.py` lines 24-90)

The shared context entries these two steps read and write:
`config.step` and the `repo_updated` flag (absent before
`RepositoryUpdateStep` runs; `context.get('repo_updated', False)`
defaults it to false). -/

structure StepCtx where
  step : String
  repoUpdated : Option Bool
deriving DecidableEq, Repr

/-- `RepositoryUpdateStep.execute`: runs `git_ops.check_and_update_repo()`
(the argument `updated` is that call's boolean result); records the result in
`context['repo_updated']`; reports success when the repo was updated, and
otherwise reports success exactly when the mode is `all`. -/
def repositoryUpdateStepExecute (updated : Bool) (c : StepCtx) : Bool × StepCtx :=
  if updated then
    (true, { c with repoUpdated := some true })
  else
    (if c.step = "all" then true else false, { c with repoUpdated := some false })

/-- `RepositoryCloneStep.execute`: when the mode is `all` and
`context.get('repo_updated', False)` is true, returns success immediately
without calling `git_ops.clone_repo()`; otherwise calls `clone_repo` (whose
boolean result is the argument `cloneResult`) and reports its result.
The second component records whether a clone was attempted. -/
def repositoryCloneStepExecute (cloneResult : Bool) (c : StepCtx) : Bool × Bool :=
  if c.step = "all" && c.repoUpdated.getD false then
    (true, false)
  else
    (cloneResult, true)

/-! ## Credential injection (`git_operations.py`, `_get_auth_url`)

Python truthiness: `not self.git_username` is true both for `None` and for
the empty string, so credentials are modelled as `Option String` with an
explicit emptiness check. -/

/-- A credential counts as present exactly when it is neither `None` nor
the empty string (Python `not x` on an optional string). -/
def credPresent : Option String → Bool
  | none => false
  | some s => !(s == "")

/-- Python's `target_url.startswith` of the scheme, at the character level. -/
def startsWithHttps (target_url : String) : Bool :=
  "https://".data.isPrefixOf target_url.data

/-- `GitOperations._get_auth_url` applied to an explicit target URL:
if username or PAT is absent, or the URL does not start with `https://`,
the URL is returned unchanged; otherwise the result is
`https://<username>:<pat>@` followed by the URL with its first 8
characters (the `https://` scheme part, Python `target_url[8:]`) removed. -/
def get_auth_url (username pat : Option String) (target_url : String) : String :=
  if !credPresent username || !credPresent pat || !startsWithHttps target_url then
    target_url
  else
    "https://" ++ username.getD "" ++ ":" ++ pat.getD "" ++ "@"
      ++ String.mk (target_url.data.drop 8)

/-! ## Commit and push (`git_operations.py`, `commit_changes` / `push_changes`)

Environment: per-submodule observable state (dirty / ahead-of-upstream) plus
a flag for an exception raised inside that submodule's loop body (the
`except ... continue` handler); the main repository likewise, its exception
flag standing for a failure of `git add -A` / `index.commit` (resp.
`origin.push`), which is caught only by the outer handler that makes the
whole method return `False`.  Each function returns the Python boolean
result together with the number of commits created (resp. pushes performed),
counting side effects that happened before any late failure. -/

structure CommitSubmodule where
  dirty : Bool        -- `submodule_repo.is_dirty(untracked_files=True)`
  commitFails : Bool  -- exception inside this submodule's try-block
deriving DecidableEq, Repr

structure CommitEnv where
  repoLoaded : Bool   -- `self.repo` is not None
  submodules : List CommitSubmodule
  mainDirty : Bool
  mainCommitFails : Bool
deriving DecidableEq, Repr

/-- `GitOperations.commit_changes`: with no repo loaded, returns false.
Otherwise each dirty submodule whose add/commit does not fail produces one
commit (a failing submodule is logged and skipped via `continue`); then, if
the main repository is dirty, its commit is attempted — an exception there
reaches the outer handler and the method returns false, the submodule
commits already created notwithstanding.  The boolean result is
`committed_repos` being non-empty. -/
def commit_changes (e : CommitEnv) : Bool × Nat :=
  if !e.repoLoaded then
    (false, 0)
  else
    let n := (e.submodules.filter fun s => s.dirty && !s.commitFails).length
    if e.mainDirty then
      if e.mainCommitFails then (false, n) else (true, n + 1)
    else
      (n != 0, n)

structure PushSubmodule where
  ahead : Nat        -- length of `list(iter_commits(...))` against upstream
  pushFails : Bool   -- exception inside this submodule's try-block
deriving DecidableEq, Repr

structure PushEnv where
  repoLoaded : Bool
  submodules : List PushSubmodule
  mainAhead : Nat
  mainPushFails : Bool
deriving DecidableEq, Repr

/-- `GitOperations.push_changes`: with no repo loaded, returns false.
Each submodule with commits strictly ahead of its upstream and a
non-failing push is pushed (a failing one is logged and skipped); a
submodule with zero ahead-commits is never pushed.  Then the main
repository is pushed if it is ahead — an exception there reaches the outer
handler and the method returns false.  The boolean result is
`pushed_repos` being non-empty. -/
def push_changes (e : PushEnv) : Bool × Nat :=
  if !e.repoLoaded then
    (false, 0)
  else
    let n := (e.submodules.filter fun s => s.ahead != 0 && !s.pushFails).length
    if e.mainAhead != 0 then
      if e.mainPushFails then (false, n) else (true, n + 1)
    else
      (n != 0, n)

/-! ## iCloud sync (`icloud_operations.py`, the module `cli.py` imports) -/

structure ICloudSyncEnv where
  remoteLsCount : Option Nat  -- `rclone.ls` result; `none` = the call raises
  subprocessOk : Bool         -- the `rclone sync` subprocess returned code 0
                              -- (false also covers timeout and exceptions,
                              -- all caught inside `_execute_sync_with_subprocess`)
  destFileCount : Nat         -- `_count_synced_files()` length at the destination
deriving DecidableEq, Repr

/-- `ICloudOperations._verify_sync_results`: computes the expected count from
`rclone.ls` (a failure there is caught and the expected count set to 0) and
the actual count of files at the destination; it raises
(`Exception("Sync failed - no files were synced")`) exactly when the actual
count is zero — with a positive actual count below the expected count it
only prints a partial-sync warning and returns normally. -/
def verify_sync_results (e : ICloudSyncEnv) : Except String Unit :=
  let expected := e.remoteLsCount.getD 0
  let actual := e.destFileCount
  if actual ≠ 0 ∧ expected ≤ actual then
    Except.ok ()
  else if actual ≠ 0 then
    Except.ok ()  -- partial sync: warning printed, nothing raised
  else
    Except.error "Sync failed - no files were synced"

/-- `ICloudOperations._execute_sync_operation`: runs the transfer via
subprocess; on subprocess success it returns normally, otherwise it falls
back to `_verify_sync_results`, whose exception (if any) is the only one
that escapes. -/
def execute_sync_operation (e : ICloudSyncEnv) : Except String Unit :=
  if e.subprocessOk then Except.ok () else verify_sync_results e

/-- `ICloudOperations.sync_from_icloud_to_repo`: first
`test_icloud_connection` (whose `rclone.ls` exception propagates), then
`_execute_sync_operation`. -/
def sync_from_icloud_to_repo (e : ICloudSyncEnv) : Except String Unit :=
  match e.remoteLsCount with
  | none => Except.error "Failed to connect to iCloud folder"
  | some _ => execute_sync_operation e

/-- `ICloudSyncStep.execute` (`cli.py`): returns true when
`sync_from_icloud_to_repo` returns normally, false when it raises. -/
def icloudSyncStepExecute (e : ICloudSyncEnv) : Bool :=
  match sync_from_icloud_to_repo e with
  | Except.ok _ => true
  | Except.error _ => false

/-! ## rclone argument sets (`icloud_operations.py` vs `cloud_operations.py`) -/

/-- Wrap a pattern in single quotes (`config.py` stores its default exclude
patterns pre-quoted for the rclone command line). -/
def q (s : String) : String := "\x27" ++ s ++ "\x27"

/-- `SyncConfig.DEFAULT_EXCLUDE_PATTERNS` from `config.py`. -/
def DEFAULT_EXCLUDE_PATTERNS : List String :=
  [q ".git/", q ".git", q ".git/**", q "**/.git", q "**/.git/**",
   q ".gitmodules", q "**/.gitmodules", q ".gitignore", q "**/.gitignore",
   q ".gitlab-ci.yml", q "**/.gitlab-ci.yml"]

/-- The argument list built by `ICloudOperations._execute_sync_operation`
(`icloud_operations.py` lines 114-127): fixed flags, then one `--exclude`
per configured pattern. -/
def icloudSyncArgs (configFile : String) (excludePatterns : List String) : List String :=
  ["--config", configFile, "--transfers", "3", "--checkers", "4",
   "--tpslimit", "10", "--retries", "5", "--low-level-retries", "10", "-v"]
  ++ excludePatterns.flatMap fun p => ["--exclude", p]

/-- The argument list built by `CloudSyncOperations._execute_sync_operation`
(`cloud_operations.py` lines 122-138): same fixed flags plus
`--delete-excluded=false` and `--checksum`, then the exclude patterns. -/
def cloudSyncArgs (configFile : String) (excludePatterns : List String) : List String :=
  ["--config", configFile, "--transfers", "3", "--checkers", "4",
   "--tpslimit", "10", "--retries", "5", "--low-level-retries", "10",
   "--delete-excluded=false", "--checksum", "-v"]
  ++ excludePatterns.flatMap fun p => ["--exclude", p]

/-! ## Commit / push step adapters and `main` (`cli.py`) -/

/-- `CommitStep.execute`: calls `git_ops.commit_changes()` inside try/except;
a normal boolean return (true or false) yields step success, only a raised
exception yields step failure. -/
def commitStepExecute (result : Except String Bool) : Bool :=
  match result with
  | Except.ok _ => true
  | Except.error _ => false

/-- `PushStep.execute`: same adapter shape as `CommitStep.execute`, around
`git_ops.push_changes()`. -/
def pushStepExecute (result : Except String Bool) : Bool :=
  match result with
  | Except.ok _ => true
  | Except.error _ => false

structure MainOutcome where
  printedFailureMessage : Bool
  exitCode : Nat
deriving DecidableEq, Repr

/-- `cli.main` as a function of the pipeline result: it prints a success or
failure message and then simply returns — no `sys.exit` call appears
anywhere in `cli.py`, so the interpreter ends the process with status 0 in
both cases. -/
def cliMain (pipelineSuccess : Bool) : MainOutcome :=
  { printedFailureMessage := !pipelineSuccess, exitCode := 0 }

/-! ## Theorems -/

/-- C1: for every run-mode the pipeline's step sequence is exactly the one
in the §4.1 table — clone = [CloneOnly], update = [AcquireOrRefresh],
sync = [LoadOnly, CloudSync, ReportDiff, CommitAll, PushAll],
all = [AcquireOrRefresh, CloneOnly, CloudSync, ReportDiff, CommitAll,
PushAll] — and any mode value outside the four choices is rejected by the
argument parser before any step executes. -/
theorem c1_mode_step_table :
    step_definitions "clone" = [StepName.repositoryClone]
  ∧ step_definitions "update" = [StepName.repositoryUpdate]
  ∧ step_definitions "sync" =
      [StepName.repositoryLoad, StepName.icloudSync, StepName.showChanges,
       StepName.commitStep, StepName.pushStep]
  ∧ step_definitions "all" =
      [StepName.repositoryUpdate, StepName.repositoryClone, StepName.icloudSync,
       StepName.showChanges, StepName.commitStep, StepName.pushStep]
  ∧ ∀ s : String, s ∉ stepChoices → parseStepArg s = none := by
  refine ⟨by decide, by decide, by decide, by decide, ?_⟩
  intro s hs
  simp [parseStepArg, hs]

/-- Witness for C1 at the concrete rejected mode value `"bogus"`. -/
theorem c1_mode_step_table_witness : parseStepArg "bogus" = none :=
  c1_mode_step_table.2.2.2.2 "bogus" (by decide)

/-- C2: for every step sequence and every shared context, when the steps
before `s` all succeed and `s` returns failure, the pipeline stops right
after `s` (exactly `pre.length + 1` steps execute, none of `post` runs)
and the overall result is failure; and when every step returns success the
overall result is success with every step executed. -/
theorem c2_pipeline_failure_short_circuit :
    (∀ (σ : Type) (pre : List (σ → Bool × σ)) (s : σ → Bool × σ)
       (post : List (σ → Bool × σ)) (ctx : σ),
       (pipelineExecute pre ctx).1 = true →
       (s (pipelineExecute pre ctx).2.1).1 = false →
       pipelineExecute (pre ++ s :: post) ctx =
         (false, (s (pipelineExecute pre ctx).2.1).2, pre.length + 1))
  ∧ (∀ (σ : Type) (steps : List (σ → Bool × σ)) (ctx : σ),
       (∀ f ∈ steps, ∀ x, (f x).1 = true) →
       (pipelineExecute steps ctx).1 = true ∧
       (pipelineExecute steps ctx).2.2 = steps.length) := by
  constructor
  · intro σ pre
    induction pre with
    | nil =>
      intro s post ctx _ hfail
      simp only [pipelineExecute] at hfail ⊢
      simp [List.nil_append, pipelineExecute, hfail]
    | cons p pre ih =>
      intro s post ctx hsucc hfail
      by_cases hp : (p ctx).1 = true
      · simp only [pipelineExecute, hp, if_true] at hsucc hfail
        have hrec := ih s post (p ctx).2 hsucc hfail
        simp only [List.cons_append, pipelineExecute, hp, if_true,
          List.append_eq, hrec, List.length_cons]
      · simp only [pipelineExecute, Bool.not_eq_true] at hsucc
        simp only [Bool.not_eq_true] at hp
        rw [hp] at hsucc
        simp at hsucc
  · intro σ steps
    induction steps with
    | nil =>
      intro ctx _
      exact ⟨rfl, rfl⟩
    | cons f steps ih =>
      intro ctx hall
      have hf : (f ctx).1 = true := hall f (List.mem_cons_self f steps) ctx
      have hrest := ih (f ctx).2 (fun g hg x => hall g (List.mem_cons_of_mem f hg) x)
      simp only [pipelineExecute, hf, if_true, List.length_cons]
      exact ⟨hrest.1, by rw [hrest.2]⟩

/-- Witness for C2 on a concrete three-step pipeline over `Nat` contexts
whose second step fails: exactly two steps execute and the run fails. -/
theorem c2_pipeline_failure_short_circuit_witness :
    pipelineExecute
      [fun c : Nat => (true, c + 1), fun c : Nat => (false, c),
       fun c : Nat => (true, c + 1)] 0 = (false, 1, 2) := by
  have h := c2_pipeline_failure_short_circuit.1 Nat
    [fun c : Nat => (true, c + 1)] (fun c : Nat => (false, c))
    [fun c : Nat => (true, c + 1)] 0 rfl rfl
  simpa using h

/-- C3: in `all` mode, when `RepositoryUpdateStep` reports success (setting
`repo_updated` to true) the clone step returns success without attempting a
clone, and when `RepositoryUpdateStep` reports that no repository exists the
clone step does attempt the clone (and reports the clone call's result). -/
theorem c3_all_mode_clone_conditional (cloneResult : Bool) (c : StepCtx)
    (hall : c.step = "all") :
    (repositoryUpdateStepExecute true c).1 = true
  ∧ repositoryCloneStepExecute cloneResult (repositoryUpdateStepExecute true c).2
      = (true, false)
  ∧ (repositoryUpdateStepExecute false c).1 = true
  ∧ (repositoryCloneStepExecute cloneResult
       (repositoryUpdateStepExecute false c).2).2 = true
  ∧ (repositoryCloneStepExecute cloneResult
       (repositoryUpdateStepExecute false c).2).1 = cloneResult := by
  simp [repositoryUpdateStepExecute, repositoryCloneStepExecute, hall]

/-- Witness for C3 at the concrete context of an `all`-mode run. -/
theorem c3_all_mode_clone_conditional_witness :
    repositoryCloneStepExecute false
      (repositoryUpdateStepExecute true ⟨"all", none⟩).2 = (true, false)
  ∧ (repositoryCloneStepExecute false
      (repositoryUpdateStepExecute false ⟨"all", none⟩).2).2 = true :=
  ⟨(c3_all_mode_clone_conditional false ⟨"all", none⟩ rfl).2.1,
   (c3_all_mode_clone_conditional false ⟨"all", none⟩ rfl).2.2.2.1⟩

/-- C4 (code bug): `cli.main` never calls `sys.exit`, so the process exit
status is 0 regardless of the pipeline result; on pipeline failure the code
only prints the failure message and still ends with exit status 0, where the
claim (and `tests/test_cli.py`) require exit status 1. -/
theorem c4_main_exit_status_always_zero :
    (cliMain true).exitCode = 0
  ∧ (cliMain false).exitCode = 0
  ∧ (cliMain false).printedFailureMessage = true
  ∧ (cliMain true).printedFailureMessage = false := by
  decide

/-- C5 counterexample: one dirty submodule whose commit succeeds, a dirty
main repository whose commit raises — exactly one commit is created, yet
`commit_changes` returns false, refuting "returns true iff at least one
commit was created". -/
theorem c5_commit_iff_counterexample :
    (commit_changes ⟨true, [⟨true, false⟩], true, true⟩).2 = 1
  ∧ (commit_changes ⟨true, [⟨true, false⟩], true, true⟩).1 = false := by
  decide

/-- C5 amended: with a repository loaded, the number of commits created is
one per dirty submodule whose commit does not fail plus one for a dirty
main repository whose commit does not fail (so a per-submodule failure is
skipped without preventing sibling submodules or the main repository from
being evaluated and committed); provided the main-repository commit does
not raise, the boolean result is true iff at least one commit was created;
and on a fully clean main repository and submodules the result is false
with zero commits. -/
theorem c5_commit_changes_amended :
    (∀ e : CommitEnv, e.repoLoaded = true →
       (commit_changes e).2 =
         (e.submodules.filter fun s => s.dirty && !s.commitFails).length
         + (if e.mainDirty && !e.mainCommitFails then 1 else 0))
  ∧ (∀ e : CommitEnv, e.repoLoaded = true →
       ¬(e.mainDirty = true ∧ e.mainCommitFails = true) →
       ((commit_changes e).1 = true ↔ 1 ≤ (commit_changes e).2))
  ∧ (∀ e : CommitEnv, e.repoLoaded = true →
       (∀ s ∈ e.submodules, s.dirty = false) → e.mainDirty = false →
       commit_changes e = (false, 0)) := by
  refine ⟨?_, ?_, ?_⟩
  · intro e he
    rcases e with ⟨_, subs, mdirty, mfails⟩
    subst he
    cases mdirty <;> cases mfails <;> simp [commit_changes]
  · intro e he hmain
    rcases e with ⟨_, subs, mdirty, mfails⟩
    subst he
    cases mdirty <;> cases mfails <;>
      simp_all [commit_changes, Nat.one_le_iff_ne_zero]
  · intro e he hsubs hmain
    rcases e with ⟨_, subs, mdirty, mfails⟩
    subst he
    subst hmain
    have hfilter : (subs.filter fun s => s.dirty && !s.commitFails) = [] := by
      rw [List.filter_eq_nil_iff]
      intro s hs
      simp [hsubs s hs]
    simp [commit_changes, hfilter]

/-- Witness for C5 at a concrete environment: a clean run returns false
with zero commits, and with one dirty submodule and a failing sibling the
result is true with exactly one commit. -/
theorem c5_commit_changes_amended_witness :
    commit_changes ⟨true, [⟨false, false⟩], false, false⟩ = (false, 0)
  ∧ (commit_changes ⟨true, [⟨true, false⟩, ⟨true, true⟩], false, false⟩).2 = 1
  ∧ ((commit_changes ⟨true, [⟨true, false⟩, ⟨true, true⟩], false, false⟩).1 = true
       ↔ 1 ≤ (commit_changes ⟨true, [⟨true, false⟩, ⟨true, true⟩], false, false⟩).2) :=
  ⟨c5_commit_changes_amended.2.2 ⟨true, [⟨false, false⟩], false, false⟩ rfl
     (by intro s hs; simp at hs; rw [hs]) rfl,
   (c5_commit_changes_amended.1 ⟨true, [⟨true, false⟩, ⟨true, true⟩], false, false⟩
      rfl).trans (by decide),
   c5_commit_changes_amended.2.1 ⟨true, [⟨true, false⟩, ⟨true, true⟩], false, false⟩
     rfl (by decide)⟩

/-- C6 counterexample: one submodule a single commit ahead whose push
succeeds, a main repository also ahead whose push raises — exactly one push
occurred, yet `push_changes` returns false, refuting "returns true iff at
least one push occurred". -/
theorem c6_push_iff_counterexample :
    (push_changes ⟨true, [⟨1, false⟩], 1, true⟩).2 = 1
  ∧ (push_changes ⟨true, [⟨1, false⟩], 1, true⟩).1 = false := by
  decide

/-- C6 amended: with a repository loaded, the pushes performed are one per
submodule strictly ahead of its upstream whose push does not fail, plus one
for the main repository when it is strictly ahead and its push does not
fail — so a repository with zero ahead-commits is never pushed and a
per-submodule push failure is skipped without aborting sibling or
main-repository pushes; provided the main-repository push does not raise,
the boolean result is true iff at least one push occurred; and with nothing
ahead anywhere the result is false with zero pushes. -/
theorem c6_push_changes_amended :
    (∀ e : PushEnv, e.repoLoaded = true →
       (push_changes e).2 =
         (e.submodules.filter fun s => s.ahead != 0 && !s.pushFails).length
         + (if e.mainAhead != 0 && !e.mainPushFails then 1 else 0))
  ∧ (∀ e : PushEnv, e.repoLoaded = true →
       ¬(e.mainAhead ≠ 0 ∧ e.mainPushFails = true) →
       ((push_changes e).1 = true ↔ 1 ≤ (push_changes e).2))
  ∧ (∀ e : PushEnv, e.repoLoaded = true →
       (∀ s ∈ e.submodules, s.ahead = 0) → e.mainAhead = 0 →
       push_changes e = (false, 0)) := by
  refine ⟨?_, ?_, ?_⟩
  · intro e he
    rcases e with ⟨_, subs, mahead, mfails⟩
    subst he
    by_cases hm : mahead = 0
    · subst hm
      simp [push_changes]
    · cases mfails <;>
        simp [push_changes, hm]
  · intro e he hmain
    rcases e with ⟨_, subs, mahead, mfails⟩
    subst he
    by_cases hm : mahead = 0
    · subst hm
      simp [push_changes, Nat.one_le_iff_ne_zero]
    · cases mfails <;> simp_all [push_changes, Nat.one_le_iff_ne_zero]
  · intro e he hsubs hmain
    rcases e with ⟨_, subs, mahead, mfails⟩
    subst he
    subst hmain
    have hfilter : (subs.filter fun s => s.ahead != 0 && !s.pushFails) = [] := by
      rw [List.filter_eq_nil_iff]
      intro s hs
      simp [hsubs s hs]
    simp [push_changes, hfilter]

/-- Witness for C6 at a concrete environment: nothing ahead yields false
with zero pushes, and one submodule ahead with a failing sibling yields
exactly one push with a true result. -/
theorem c6_push_changes_amended_witness :
    push_changes ⟨true, [⟨0, false⟩], 0, false⟩ = (false, 0)
  ∧ (push_changes ⟨true, [⟨2, false⟩, ⟨1, true⟩], 0, false⟩).2 = 1
  ∧ ((push_changes ⟨true, [⟨2, false⟩, ⟨1, true⟩], 0, false⟩).1 = true
       ↔ 1 ≤ (push_changes ⟨true, [⟨2, false⟩, ⟨1, true⟩], 0, false⟩).2) :=
  ⟨c6_push_changes_amended.2.2 ⟨true, [⟨0, false⟩], 0, false⟩ rfl
     (by intro s hs; simp at hs; rw [hs]) rfl,
   (c6_push_changes_amended.1 ⟨true, [⟨2, false⟩, ⟨1, true⟩], 0, false⟩
      rfl).trans (by decide),
   c6_push_changes_amended.2.1 ⟨true, [⟨2, false⟩, ⟨1, true⟩], 0, false⟩
     rfl (by decide)⟩

/-- C7: credential injection is pure — with non-empty username `u` and
secret `t`, the HTTPS URL `https://host/path.git` becomes exactly
`https://u:t@host/path.git`; a URL not starting with `https://` is returned
unchanged; and an absent (None or empty) username or secret leaves every
input URL unchanged. -/
theorem c7_get_auth_url_pure :
    (∀ u t : String, u ≠ "" → t ≠ "" →
       get_auth_url (some u) (some t) "https://host/path.git" =
         "https://" ++ u ++ ":" ++ t ++ "@host/path.git")
  ∧ (∀ (username pat : Option String) (url : String),
       startsWithHttps url = false →
       get_auth_url username pat url = url)
  ∧ (∀ (pat : Option String) (url : String), get_auth_url none pat url = url)
  ∧ (∀ (username : Option String) (url : String),
       get_auth_url username none url = url)
  ∧ (∀ (pat : Option String) (url : String),
       get_auth_url (some "") pat url = url)
  ∧ (∀ (username : Option String) (url : String),
       get_auth_url username (some "") url = url) := by
  refine ⟨?_, ?_, ?_, ?_, ?_, ?_⟩
  · intro u t hu ht
    have hsw : startsWithHttps "https://host/path.git" = true := by decide
    have hdrop : String.mk ("https://host/path.git".data.drop 8)
        = "host/path.git" := by decide
    have hat : ("@" : String) ++ "host/path.git" = "@host/path.git" := by decide
    simp only [get_auth_url, credPresent, hsw, Bool.not_true, Bool.or_false,
      Option.getD_some, hdrop]
    rw [String.append_assoc, hat, if_neg]
    simp [hu, ht]
  · intro username pat url h
    simp [get_auth_url, h]
  · intro pat url
    simp [get_auth_url, credPresent]
  · intro username url
    rcases username with _ | u <;> simp [get_auth_url, credPresent]
  · intro pat url
    simp [get_auth_url, credPresent]
  · intro username url
    rcases username with _ | u <;> simp [get_auth_url, credPresent]

/-- Witness for C7 at concrete credentials and URLs. -/
theorem c7_get_auth_url_pure_witness :
    get_auth_url (some "u") (some "t") "https://host/path.git"
      = "https://u:t@host/path.git"
  ∧ get_auth_url (some "u") (some "t") "ssh://git@host/path.git"
      = "ssh://git@host/path.git"
  ∧ get_auth_url none (some "t") "https://host/path.git"
      = "https://host/path.git" :=
  ⟨(c7_get_auth_url_pure.1 "u" "t" (by decide) (by decide)).trans (by decide),
   c7_get_auth_url_pure.2.1 (some "u") (some "t") "ssh://git@host/path.git"
     (by decide),
   c7_get_auth_url_pure.2.2.1 (some "t") "https://host/path.git"⟩

/-- C8 (code bug): with the remote listing reporting 2 files, the transfer
subprocess failing, and 1 file present at the destination,
`sync_from_icloud_to_repo` returns normally (the verification fallback
raises only when the destination holds zero files), so `ICloudSyncStep`
reports success — the unrecoverable transfer error is silently converted
into success instead of being wrapped and re-raised as the claim (and the
module's own test suite, which expects a wrapped `RuntimeError`) requires.
Only with an empty destination does the error propagate. -/
theorem c8_transfer_error_swallowed :
    sync_from_icloud_to_repo ⟨some 2, false, 1⟩ = Except.ok ()
  ∧ icloudSyncStepExecute ⟨some 2, false, 1⟩ = true
  ∧ verify_sync_results ⟨some 2, false, 1⟩ = Except.ok ()
  ∧ sync_from_icloud_to_repo ⟨some 2, false, 0⟩
      = Except.error "Sync failed - no files were synced" :=
  ⟨rfl, rfl, rfl, rfl⟩

/-- C9 counterexample: the argument set that
`ICloudOperations._execute_sync_operation` — the transfer invoked by the
CLI's CloudSync step — passes to rclone does not contain `--checksum`, even
in the default configuration. -/
theorem c9_icloud_args_no_checksum :
    "--checksum" ∉ icloudSyncArgs "/tmp/rclone.conf" DEFAULT_EXCLUDE_PATTERNS := by
  decide

/-- C9 amended: only the generalized `cloud_operations` transfer variant is
configured with checksum-based comparison (every invocation of it passes
`--checksum`); the `icloud_operations` variant actually invoked by the
CLI's CloudSync step never passes `--checksum` (its comparison falls back
to rclone's size-and-modification-time default). -/
theorem c9_checksum_flag_amended :
    (∀ (configFile : String) (excl : List String),
       "--checksum" ∈ cloudSyncArgs configFile excl)
  ∧ (∀ (configFile : String) (excl : List String),
       configFile ≠ "--checksum" → (∀ p ∈ excl, p ≠ "--checksum") →
       "--checksum" ∉ icloudSyncArgs configFile excl) := by
  constructor
  · intro configFile excl
    simp [cloudSyncArgs]
  · intro configFile excl hcfg hp hmem
    simp only [icloudSyncArgs, List.mem_append, List.mem_flatMap,
      List.mem_cons, List.not_mem_nil, or_false] at hmem
    rcases hmem with h | ⟨p, hpmem, h⟩
    · rcases h with h | h | h | h | h | h | h | h | h | h | h | h | h
      all_goals first
        | exact hcfg h.symm
        | exact absurd h (by decide)
    · rcases h with h | h
      · exact absurd h (by decide)
      · exact hp p hpmem h.symm

/-- Witness for C9 at a concrete invocation. -/
theorem c9_checksum_flag_amended_witness :
    "--checksum" ∈ cloudSyncArgs "/tmp/rclone.conf" DEFAULT_EXCLUDE_PATTERNS
  ∧ "--checksum" ∉ icloudSyncArgs "/tmp/rclone.conf" [] :=
  ⟨c9_checksum_flag_amended.1 "/tmp/rclone.conf" DEFAULT_EXCLUDE_PATTERNS,
   c9_checksum_flag_amended.2 "/tmp/rclone.conf" [] (by decide)
     (by intro p hp; simp at hp)⟩

/-- C10 (implicit): the CommitStep and PushStep adapters report step success
whenever the underlying operation returns normally — in particular when it
returns false meaning nothing needed committing or pushing, so a no-change
run executes both steps and the pipeline succeeds — and report step failure
exactly when the underlying operation raises. -/
theorem c10_commit_push_step_adapters :
    (∀ b : Bool, commitStepExecute (Except.ok b) = true)
  ∧ (∀ b : Bool, pushStepExecute (Except.ok b) = true)
  ∧ (∀ msg : String, commitStepExecute (Except.error msg) = false)
  ∧ (∀ msg : String, pushStepExecute (Except.error msg) = false)
  ∧ pipelineExecute
      [fun c : Unit => (commitStepExecute (Except.ok false), c),
       fun c : Unit => (pushStepExecute (Except.ok false), c)] ()
      = (true, (), 2) :=
  ⟨fun _ => rfl, fun _ => rfl, fun _ => rfl, fun _ => rfl, rfl⟩
